import Mathlib

/-!
Verification of the spacebot HTTP/SSE transport layer against its
specification.  The definitions below are a shallow embedding of
`src/api/state.rs` and `src/api/server.rs`: pure Rust functions become Lean
functions, the tokio broadcast-receiver loop of each subscriber becomes a
function over the list of receiver outcomes it observes, and fallible
handlers return `Except`.
-/

namespace Spacebot

/-! ## Process identity (crate root, used by `state.rs`)

Modelled from the spec (section 3) and from the exhaustive match in
`process_id_info` in `state.rs`: a tagged union with exactly the variants
`Channel`, `Branch`, `Worker`, each carrying an opaque string identifier. -/

inductive ProcessId where
  | channel (channel_id : String)
  | branch (branch_id : String)
  | worker (worker_id : String)
  deriving DecidableEq

/-- Embedding of `process_id_info` (`state.rs` lines 269-275): extract the
externally-stable `(process_type, id_string)` pair from a `ProcessId`. -/
def process_id_info : ProcessId → String × String
  | ProcessId.channel channel_id => ("channel", channel_id)
  | ProcessId.branch branch_id => ("branch", branch_id)
  | ProcessId.worker worker_id => ("worker", worker_id)

/-! ## Internal process events (crate root, used by `state.rs`)

Modelled from the spec (section 4.2) and the patterns matched in
`register_agent_events`: only the fields that the forwarding task reads are
kept (the Rust patterns end in `..`, eliding further fields such as
timestamps).  Variants matched by the Rust wildcard arm `_ => {}` are
collapsed into the `other` constructor. -/

inductive ProcessEvent where
  | workerStarted (worker_id : String) (channel_id : Option String) (task : String)
  | branchStarted (branch_id : String) (channel_id : String) (description : String)
  | workerStatus (worker_id : String) (channel_id : Option String) (status : String)
  | workerComplete (worker_id : String) (channel_id : Option String) (result : String)
  | branchResult (branch_id : String) (channel_id : String) (conclusion : String)
  | toolStarted (process_id : ProcessId) (channel_id : Option String) (tool_name : String)
  | toolCompleted (process_id : ProcessId) (channel_id : Option String) (tool_name : String)
  | other
  deriving DecidableEq

/-- Embedding of the `ApiEvent` enum of `state.rs` (lines 48-119): events sent
to SSE clients, wrapping process events with agent context. -/
inductive ApiEvent where
  | inboundMessage (agent_id : String) (channel_id : String) (sender_id : String) (text : String)
  | outboundMessage (agent_id : String) (channel_id : String) (text : String)
  | typingState (agent_id : String) (channel_id : String) (is_typing : Bool)
  | workerStarted (agent_id : String) (channel_id : Option String) (worker_id : String)
      (task : String)
  | workerStatusUpdate (agent_id : String) (channel_id : Option String) (worker_id : String)
      (status : String)
  | workerCompleted (agent_id : String) (channel_id : Option String) (worker_id : String)
      (result : String)
  | branchStarted (agent_id : String) (channel_id : String) (branch_id : String)
      (description : String)
  | branchCompleted (agent_id : String) (channel_id : String) (branch_id : String)
      (conclusion : String)
  | toolStarted (agent_id : String) (channel_id : Option String) (process_type : String)
      (process_id : String) (tool_name : String)
  | toolCompleted (agent_id : String) (channel_id : Option String) (process_type : String)
      (process_id : String) (tool_name : String)
  deriving DecidableEq

/-- Outcome of one `recv()` call on a tokio broadcast receiver, as matched by
both subscriber loops: a delivered value, a `Lagged(count)` notification
(the receiver was too far behind, `count` oldest unread events were
dropped), or `Closed` (every sender was dropped). -/
inductive RecvResult (α : Type) where
  | ok (value : α)
  | lagged (count : Nat)
  | closed
  deriving DecidableEq

/-- Embedding of the translation performed per received event by the
forwarding task of `register_agent_events` (`state.rs` lines 169-231):
the seven translated `ProcessEvent` variants become `ApiEvent`s carrying the
registering `agent_id`; every other variant is dropped (`_ => {}`). -/
def translate_event (agent_id : String) : ProcessEvent → Option ApiEvent
  | ProcessEvent.workerStarted worker_id channel_id task =>
      some (ApiEvent.workerStarted agent_id channel_id worker_id task)
  | ProcessEvent.branchStarted branch_id channel_id description =>
      some (ApiEvent.branchStarted agent_id channel_id branch_id description)
  | ProcessEvent.workerStatus worker_id channel_id status =>
      some (ApiEvent.workerStatusUpdate agent_id channel_id worker_id status)
  | ProcessEvent.workerComplete worker_id channel_id result =>
      some (ApiEvent.workerCompleted agent_id channel_id worker_id result)
  | ProcessEvent.branchResult branch_id channel_id conclusion =>
      some (ApiEvent.branchCompleted agent_id channel_id branch_id conclusion)
  | ProcessEvent.toolStarted process_id channel_id tool_name =>
      some (ApiEvent.toolStarted agent_id channel_id (process_id_info process_id).1
        (process_id_info process_id).2 tool_name)
  | ProcessEvent.toolCompleted process_id channel_id tool_name =>
      some (ApiEvent.toolCompleted agent_id channel_id (process_id_info process_id).1
        (process_id_info process_id).2 tool_name)
  | ProcessEvent.other => none

/-- Embedding of the forwarding loop spawned by `register_agent_events`
(`state.rs` lines 164-239), applied to the sequence of receiver outcomes the
task observes.  The output is the list of `ApiEvent`s the task sends into
the aggregated stream (`api_tx.send(..).ok()`).  On `Lagged(count)` the Rust
code only emits a `tracing::debug!` log line and sends nothing; on `Closed`
the loop breaks. -/
def register_agent_events_loop (agent_id : String) :
    List (RecvResult ProcessEvent) → List ApiEvent
  | [] => []
  | RecvResult.ok e :: rest =>
    match translate_event agent_id e with
    | some a => a :: register_agent_events_loop agent_id rest
    | none => register_agent_events_loop agent_id rest
  | RecvResult.lagged _ :: rest => register_agent_events_loop agent_id rest
  | RecvResult.closed :: _ => []

/-- Embedding of the `event_type` match of `events_sse` (`server.rs`
lines 364-375). -/
def api_event_type : ApiEvent → String
  | ApiEvent.inboundMessage .. => "inbound_message"
  | ApiEvent.outboundMessage .. => "outbound_message"
  | ApiEvent.typingState .. => "typing_state"
  | ApiEvent.workerStarted .. => "worker_started"
  | ApiEvent.workerStatusUpdate .. => "worker_status"
  | ApiEvent.workerCompleted .. => "worker_completed"
  | ApiEvent.branchStarted .. => "branch_started"
  | ApiEvent.branchCompleted .. => "branch_completed"
  | ApiEvent.toolStarted .. => "tool_started"
  | ApiEvent.toolCompleted .. => "tool_completed"

/-- One SSE frame yielded by `events_sse`: either a normal event frame (its
`data` field is the JSON serialization of the payload, modelled here by
keeping the payload structured, since serialization of these types never
fails) or the lag-marker frame with its literal data string. -/
inductive SseItem where
  | message (event_type : String) (payload : ApiEvent)
  | lagged_marker (data : String)
  deriving DecidableEq

/-- Data string of the lag-marker SSE frame built at `server.rs` line 385:
`format!` of a JSON object with the skipped count. -/
def lag_marker_data (count : Nat) : String :=
  "\x7b\"skipped\":" ++ toString count ++ "\x7d"

/-- Embedding of the SSE stream loop of `events_sse` (`server.rs`
lines 359-390), applied to the sequence of receiver outcomes the
subscription observes.  A delivered event yields a typed frame, a
`Lagged(count)` yields one `lagged` frame carrying the skipped count, and
`Closed` breaks the loop. -/
def events_sse : List (RecvResult ApiEvent) → List SseItem
  | [] => []
  | RecvResult.ok e :: rest => SseItem.message (api_event_type e) e :: events_sse rest
  | RecvResult.lagged count :: rest =>
      SseItem.lagged_marker (lag_marker_data count) :: events_sse rest
  | RecvResult.closed :: _ => []

/-! ## Shared API state (`state.rs`) -/

/-- Embedding of `AgentInfo` (`state.rs` lines 18-24); the workspace path is
modelled as a string. -/
structure AgentInfo where
  id : String
  workspace : String
  context_window : Nat
  max_turns : Nat
  max_concurrent_branches : Nat
  deriving DecidableEq

/-- Modelled from the spec (section 3): the live status block of a channel
(`crate::agent::status::StatusBlock`, whose source file is not part of the
transport layer): active workers with status strings, active branches with
descriptions, and a bounded recent-completed history.  The registry
operations below treat it as an opaque payload. -/
structure StatusBlock where
  active_workers : List (String × String)
  active_branches : List (String × String)
  recent_completed : List String
  deriving DecidableEq

/-- Embedding of `ApiState` (`state.rs` lines 27-43).  The broadcast sender
`event_tx` is represented by the capacity its channel was created with; the
copy-on-write maps are represented by the data an API handler can read from
them, and the status-block registry by a finite map from channel id to
block. -/
structure ApiState where
  event_tx_capacity : Nat
  agent_pools : List String
  agent_configs : List AgentInfo
  memory_searches : List String
  channel_status_blocks : String → Option StatusBlock
  cortex_chat_sessions : List String
  agent_workspaces : List (String × String)

/-- Embedding of `ApiState::new` (`state.rs` lines 122-134): the aggregated
event channel is created by `broadcast::channel(512)` with the literal
capacity 512, and every map starts empty.  The constructor takes no
arguments. -/
def ApiState.new : ApiState where
  event_tx_capacity := 512
  agent_pools := []
  agent_configs := []
  memory_searches := []
  channel_status_blocks := fun _ => none
  cortex_chat_sessions := []
  agent_workspaces := []

/-- Spec-side reading of the configurability half of the capacity claim
(spec section 4.2: capacity of about 512 events, configurable): some state
produced by the construction path of the code (`ApiState::new` is its only
constructor) carries a subscription buffer capacity other than 512. -/
def subscription_capacity_configurable : Prop :=
  ∃ s : ApiState, s = ApiState.new ∧ s.event_tx_capacity ≠ 512

/-- Embedding of `register_channel_status` (`state.rs` lines 137-146):
insert the block under the channel id in `channel_status_blocks`. -/
def register_channel_status (m : String → Option StatusBlock) (channel_id : String)
    (status_block : StatusBlock) : String → Option StatusBlock :=
  fun k => if k = channel_id then some status_block else m k

/-- Embedding of `unregister_channel_status` (`state.rs` lines 149-154):
remove the channel id from `channel_status_blocks`. -/
def unregister_channel_status (m : String → Option StatusBlock) (channel_id : String) :
    String → Option StatusBlock :=
  fun k => if k = channel_id then none else m k

/-- Embedding of the `channel_status` handler (`server.rs` lines 469-488):
snapshot the registry and serialize every registered block
(`serde_json::to_value` of a `Serialize` type never fails, so the result
maps exactly the registered channel ids to their block snapshots). -/
def channel_status (m : String → Option StatusBlock) : String → Option StatusBlock :=
  fun channel_id => m channel_id

/-! ## Store-backed list endpoints (`server.rs`) -/

/-- Modelled from the spec (section 6): an item of the conversation store's
unified channel timeline, treated as an opaque payload by the handler. -/
abbrev TimelineItem := String

/-- Modelled from the spec (section 6): a memory record returned by the
memory store, treated as an opaque payload by the handler. -/
abbrev Memory := String

/-- Embedding of the channel record read from the conversation store by
`list_channels`; only the fields the handler copies are modelled, with
timestamps as their rfc3339 strings. -/
structure Channel where
  id : String
  platform : String
  display_name : Option String
  is_active : Bool
  last_activity_at : String
  created_at : String
  deriving DecidableEq

/-- Embedding of `ChannelResponse` (`server.rs` lines 47-55). -/
structure ChannelResponse where
  agent_id : String
  id : String
  platform : String
  display_name : Option String
  is_active : Bool
  last_activity_at : String
  created_at : String
  deriving DecidableEq

/-- Field-by-field construction of a `ChannelResponse` as in the push at
`server.rs` lines 409-417. -/
def channel_response (agent_id : String) (c : Channel) : ChannelResponse where
  agent_id := agent_id
  id := c.id
  platform := c.platform
  display_name := c.display_name
  is_active := c.is_active
  last_activity_at := c.last_activity_at
  created_at := c.created_at

/-- HTTP status codes produced by the fallible handlers. -/
inductive StatusCode where
  | notFound
  | internalServerError
  deriving DecidableEq

/-- Embedding of `list_channels` (`server.rs` lines 400-427) over the
per-agent outcome of `ChannelStore::list_active`: a failing agent is logged
and skipped, a succeeding agent contributes its channels; the handler always
returns a success response with the accumulated list. -/
def list_channels : List (String × Except String (List Channel)) → List ChannelResponse
  | [] => []
  | (agent_id, Except.ok channels) :: rest =>
      channels.map (channel_response agent_id) ++ list_channels rest
  | (_, Except.error _) :: rest => list_channels rest

/-- Embedding of `channel_messages` (`server.rs` lines 442-464) over the
per-pool outcome of `load_channel_timeline`: the first pool returning a
non-empty timeline wins; an error or an empty timeline moves on to the next
pool; if no pool yields items the handler returns an empty success
response. -/
def channel_messages : List (Except String (List TimelineItem)) → List TimelineItem
  | [] => []
  | Except.ok items :: rest => if items.isEmpty then channel_messages rest else items
  | Except.error _ :: rest => channel_messages rest

/-- Modelled from the spec (section 6): the memory store capability
`get_sorted(sort, limit, type_filter)` returns at most `limit` items of the
store's sorted, filtered contents; the sort and filter are absorbed into the
`store_contents` view passed in.  A non-positive limit yields no items. -/
def get_sorted (store_contents : List Memory) (fetch_limit : Int) : List Memory :=
  store_contents.take fetch_limit.toNat

/-- Embedding of `MemoriesListResponse` (`server.rs` lines 73-76). -/
structure MemoriesListResponse where
  memories : List Memory
  total : Nat
  deriving DecidableEq

/-- Embedding of `list_memories` (`server.rs` lines 534-559).  The store
argument is the sorted, filtered contents of the agent's memory store when
the `get_sorted` call succeeds, or the store error otherwise.  The handler
caps the requested limit at 200, fetches `min(limit, 200) + offset` items,
reports the length of that fetched list as `total`, and returns the fetched
list with its first `offset` items dropped. -/
def list_memories (searches : List String) (agent_id : String)
    (store : Except String (List Memory)) (limit : Int) (offset : Nat) :
    Except StatusCode MemoriesListResponse :=
  if searches.any (fun s => decide (s = agent_id)) then
    match store with
    | Except.error _ => Except.error StatusCode.internalServerError
    | Except.ok store_contents =>
      let lim := min limit 200
      let fetch_limit := lim + (offset : Int)
      let all := get_sorted store_contents fetch_limit
      Except.ok ⟨all.drop offset, all.length⟩
  else Except.error StatusCode.notFound

/-! ## Agent configuration update (`server.rs`)

The `update_agent_config` handler reads `config.toml`, parses it with
`toml_edit`, finds or creates the `[[agents]]` entry for the requested
agent, applies the per-section update functions, writes the document back,
and finally returns the result of `get_agent_config`.  The model below
starts from the parsed document: the preceding steps (an unset
`config_path`, a read failure, a parse failure) return an internal error
before any write and mutate nothing. -/

/-- A toml value as far as the handler distinguishes them: `as_str` succeeds
exactly on string values. -/
inductive TomlVal where
  | str (s : String)
  | int (n : Int)
  | float (q : Rat)
  | boolean (b : Bool)
  deriving DecidableEq

/-- Embedding of `toml_edit::Item::as_str`. -/
def TomlVal.as_str : TomlVal → Option String
  | TomlVal.str s => some s
  | _ => none

/-- One table of the `[[agents]]` array: its key/value entries in order
(toml table keys are unique, so association-list lookup is faithful). -/
abbrev AgentTable := List (String × TomlVal)

/-- The parsed configuration document as the handler touches it: the
`[[agents]]` array of tables when present as such (`none` models both a
missing `agents` key and one that is not an array of tables), and the rest
of the document, which the handler never touches and `toml_edit` writes back
verbatim. -/
structure ConfigDoc where
  agents : Option (List AgentTable)
  rest : List (String × TomlVal)
  deriving DecidableEq

/-- The `id` entry of an agent table read as a string, as in
`table.get("id").and_then(|v| v.as_str())`. -/
def table_id (t : AgentTable) : Option String :=
  (t.lookup "id").bind TomlVal.as_str

/-- Index of the first agent table whose `id` entry is the given string,
mirroring the `for (idx, table) in agents.iter().enumerate()` search of
`find_or_create_agent_table`. -/
def find_agent_idx (agent_id : String) : List AgentTable → Option Nat
  | [] => none
  | t :: rest =>
    if table_id t = some agent_id then some 0
    else Option.map Nat.succ (find_agent_idx agent_id rest)

/-- Whether the configuration document contains an agent table for the given
id. -/
def doc_has_agent (doc : ConfigDoc) (agent_id : String) : Bool :=
  match doc.agents with
  | some tables => tables.any (fun t => decide (table_id t = some agent_id))
  | none => false

/-- Embedding of `find_or_create_agent_table` (`server.rs` lines 912-933):
fail with an internal error when the document has no `[[agents]]` array of
tables; return the index of an existing agent table unchanged; otherwise
append a new table holding only the `id` entry and return its index. -/
def find_or_create_agent_table (doc : ConfigDoc) (agent_id : String) :
    Except StatusCode (ConfigDoc × Nat) :=
  match doc.agents with
  | none => Except.error StatusCode.internalServerError
  | some tables =>
    match find_agent_idx agent_id tables with
    | some idx => Except.ok (doc, idx)
    | none =>
      Except.ok (⟨some (tables ++ [[("id", TomlVal.str agent_id)]]), doc.rest⟩, tables.length)

/-- Embedding of `RoutingUpdate` (`server.rs` lines 219-227). -/
structure RoutingUpdate where
  channel : Option String
  branch : Option String
  worker : Option String
  compactor : Option String
  cortex : Option String
  rate_limit_cooldown_secs : Option Nat
  deriving DecidableEq

/-- Embedding of `TuningUpdate` (`server.rs` lines 229-236). -/
structure TuningUpdate where
  max_concurrent_branches : Option Nat
  max_turns : Option Nat
  branch_max_turns : Option Nat
  context_window : Option Nat
  history_backfill_count : Option Nat
  deriving DecidableEq

/-- Embedding of `CompactionUpdate` (`server.rs` lines 238-243); the `f32`
thresholds are modelled as rationals, which is faithful here because the
handler never computes with them. -/
structure CompactionUpdate where
  background_threshold : Option Rat
  aggressive_threshold : Option Rat
  emergency_threshold : Option Rat
  deriving DecidableEq

/-- Embedding of `CortexUpdate` (`server.rs` lines 245-254). -/
structure CortexUpdate where
  tick_interval_secs : Option Nat
  worker_timeout_secs : Option Nat
  branch_timeout_secs : Option Nat
  circuit_breaker_threshold : Option Nat
  bulletin_interval_secs : Option Nat
  bulletin_max_words : Option Nat
  bulletin_max_turns : Option Nat
  deriving DecidableEq

/-- Embedding of `CoalesceUpdate` (`server.rs` lines 256-263). -/
structure CoalesceUpdate where
  enabled : Option Bool
  debounce_ms : Option Nat
  max_wait_ms : Option Nat
  min_messages : Option Nat
  multi_user_only : Option Bool
  deriving DecidableEq

/-- Embedding of `MemoryPersistenceUpdate` (`server.rs` lines 265-269). -/
structure MemoryPersistenceUpdate where
  enabled : Option Bool
  message_interval : Option Nat
  deriving DecidableEq

/-- Embedding of `BrowserUpdate` (`server.rs` lines 271-276). -/
structure BrowserUpdate where
  enabled : Option Bool
  headless : Option Bool
  evaluate_enabled : Option Bool
  deriving DecidableEq

/-- Embedding of `AgentConfigUpdateRequest` (`server.rs` lines 200-217):
every section is optional. -/
structure AgentConfigUpdateRequest where
  agent_id : String
  routing : Option RoutingUpdate
  tuning : Option TuningUpdate
  compaction : Option CompactionUpdate
  cortex : Option CortexUpdate
  coalesce : Option CoalesceUpdate
  memory_persistence : Option MemoryPersistenceUpdate
  browser : Option BrowserUpdate
  deriving DecidableEq

/-- Embedding of `update_routing_table` (`server.rs` lines 935-938): an
implementation stub that ignores its arguments and reports success without
touching the document. -/
def update_routing_table (doc : ConfigDoc) (_agent_idx : Nat) (_routing : RoutingUpdate) :
    Except StatusCode ConfigDoc :=
  Except.ok doc

/-- Embedding of `update_tuning_table` (`server.rs` lines 940-943), an
implementation stub. -/
def update_tuning_table (doc : ConfigDoc) (_agent_idx : Nat) (_tuning : TuningUpdate) :
    Except StatusCode ConfigDoc :=
  Except.ok doc

/-- Embedding of `update_compaction_table` (`server.rs` lines 945-948), an
implementation stub: in particular it performs no validation of the
threshold ordering. -/
def update_compaction_table (doc : ConfigDoc) (_agent_idx : Nat)
    (_compaction : CompactionUpdate) : Except StatusCode ConfigDoc :=
  Except.ok doc

/-- Embedding of `update_cortex_table` (`server.rs` lines 950-953), an
implementation stub. -/
def update_cortex_table (doc : ConfigDoc) (_agent_idx : Nat) (_cortex : CortexUpdate) :
    Except StatusCode ConfigDoc :=
  Except.ok doc

/-- Embedding of `update_coalesce_table` (`server.rs` lines 955-958), an
implementation stub. -/
def update_coalesce_table (doc : ConfigDoc) (_agent_idx : Nat) (_coalesce : CoalesceUpdate) :
    Except StatusCode ConfigDoc :=
  Except.ok doc

/-- Embedding of `update_memory_persistence_table` (`server.rs`
lines 960-963), an implementation stub. -/
def update_memory_persistence_table (doc : ConfigDoc) (_agent_idx : Nat)
    (_memory_persistence : MemoryPersistenceUpdate) : Except StatusCode ConfigDoc :=
  Except.ok doc

/-- Embedding of `update_browser_table` (`server.rs` lines 965-968), an
implementation stub. -/
def update_browser_table (doc : ConfigDoc) (_agent_idx : Nat) (_browser : BrowserUpdate) :
    Except StatusCode ConfigDoc :=
  Except.ok doc

/-- Application of one optional section update, mirroring the
`if let Some(section) = &request.section { update(..)?; }` shape of the
handler. -/
def apply_opt {υ : Type} (doc : ConfigDoc) (agent_idx : Nat) (upd : Option υ)
    (f : ConfigDoc → Nat → υ → Except StatusCode ConfigDoc) : Except StatusCode ConfigDoc :=
  match upd with
  | some u => f doc agent_idx u
  | none => Except.ok doc

/-- The seven section-update applications of `update_agent_config`
(`server.rs` lines 875-895), chained in the handler's order with `?`
propagation. -/
def apply_section_updates (doc : ConfigDoc) (agent_idx : Nat)
    (req : AgentConfigUpdateRequest) : Except StatusCode ConfigDoc :=
  (apply_opt doc agent_idx req.routing update_routing_table).bind (fun d1 =>
  (apply_opt d1 agent_idx req.tuning update_tuning_table).bind (fun d2 =>
  (apply_opt d2 agent_idx req.compaction update_compaction_table).bind (fun d3 =>
  (apply_opt d3 agent_idx req.cortex update_cortex_table).bind (fun d4 =>
  (apply_opt d4 agent_idx req.coalesce update_coalesce_table).bind (fun d5 =>
  (apply_opt d5 agent_idx req.memory_persistence update_memory_persistence_table).bind (fun d6 =>
  apply_opt d6 agent_idx req.browser update_browser_table))))))

/-- Embedding of `RoutingSection` (`server.rs` lines 125-133). -/
structure RoutingSection where
  channel : String
  branch : String
  worker : String
  compactor : String
  cortex : String
  rate_limit_cooldown_secs : Nat
  deriving DecidableEq

/-- Embedding of `TuningSection` (`server.rs` lines 135-142). -/
structure TuningSection where
  max_concurrent_branches : Nat
  max_turns : Nat
  branch_max_turns : Nat
  context_window : Nat
  history_backfill_count : Nat
  deriving DecidableEq

/-- Embedding of `CompactionSection` (`server.rs` lines 144-149). -/
structure CompactionSection where
  background_threshold : Rat
  aggressive_threshold : Rat
  emergency_threshold : Rat
  deriving DecidableEq

/-- Embedding of `CortexSection` (`server.rs` lines 151-160). -/
structure CortexSection where
  tick_interval_secs : Nat
  worker_timeout_secs : Nat
  branch_timeout_secs : Nat
  circuit_breaker_threshold : Nat
  bulletin_interval_secs : Nat
  bulletin_max_words : Nat
  bulletin_max_turns : Nat
  deriving DecidableEq

/-- Embedding of `CoalesceSection` (`server.rs` lines 162-169). -/
structure CoalesceSection where
  enabled : Bool
  debounce_ms : Nat
  max_wait_ms : Nat
  min_messages : Nat
  multi_user_only : Bool
  deriving DecidableEq

/-- Embedding of `MemoryPersistenceSection` (`server.rs` lines 171-175). -/
structure MemoryPersistenceSection where
  enabled : Bool
  message_interval : Nat
  deriving DecidableEq

/-- Embedding of `BrowserSection` (`server.rs` lines 177-182). -/
structure BrowserSection where
  enabled : Bool
  headless : Bool
  evaluate_enabled : Bool
  deriving DecidableEq

/-- Embedding of `AgentConfigResponse` (`server.rs` lines 184-193). -/
structure AgentConfigResponse where
  routing : RoutingSection
  tuning : TuningSection
  compaction : CompactionSection
  cortex : CortexSection
  coalesce : CoalesceSection
  memory_persistence : MemoryPersistenceSection
  browser : BrowserSection
  deriving DecidableEq

/-- The hardcoded response body built by `get_agent_config` (`server.rs`
lines 793-839). -/
def default_agent_config_response : AgentConfigResponse where
  routing := ⟨"anthropic/claude-sonnet-4-20250514", "anthropic/claude-sonnet-4-20250514",
    "anthropic/claude-haiku-4.5-20250514", "anthropic/claude-haiku-4.5-20250514",
    "anthropic/claude-haiku-4.5-20250514", 60⟩
  tuning := ⟨5, 5, 50, 128000, 50⟩
  compaction := ⟨(80 : Rat) / 100, (85 : Rat) / 100, (95 : Rat) / 100⟩
  cortex := ⟨30, 300, 60, 3, 3600, 1500, 15⟩
  coalesce := ⟨true, 1500, 5000, 2, true⟩
  memory_persistence := ⟨true, 50⟩
  browser := ⟨true, true, false⟩

/-- Embedding of `get_agent_config` (`server.rs` lines 777-842): not-found
unless some entry of the in-memory `agent_configs` list has the requested
id; otherwise the hardcoded response body (the found entry is not used). -/
def get_agent_config (agent_configs : List AgentInfo) (agent_id : String) :
    Except StatusCode AgentConfigResponse :=
  if agent_configs.any (fun c => decide (c.id = agent_id)) then
    Except.ok default_agent_config_response
  else Except.error StatusCode.notFound

/-- Embedding of `update_agent_config` (`server.rs` lines 846-909), starting
from the parsed document.  The first component is the document written back
to `config.toml` (`none` when an earlier step failed and no write happened);
the second is the handler's HTTP result, which on the write path is the
result of the trailing `get_agent_config` call. -/
def update_agent_config (agent_configs : List AgentInfo) (doc : ConfigDoc)
    (req : AgentConfigUpdateRequest) :
    Option ConfigDoc × Except StatusCode AgentConfigResponse :=
  match find_or_create_agent_table doc req.agent_id with
  | Except.error e => (none, Except.error e)
  | Except.ok (doc1, agent_idx) =>
    match apply_section_updates doc1 agent_idx req with
    | Except.error e => (none, Except.error e)
    | Except.ok doc2 => (some doc2, get_agent_config agent_configs req.agent_id)

/-- Spec-side reading of a compaction section that violates the strict
threshold ordering of spec section 4.5: all three thresholds are given and
they fail background < aggressive < emergency. -/
def compaction_violates_ordering (c : CompactionUpdate) : Prop :=
  ∃ b a e : Rat, c.background_threshold = some b ∧ c.aggressive_threshold = some a ∧
    c.emergency_threshold = some e ∧ ¬ (b < a ∧ a < e)

/-! ## Helper lemmas -/

lemma except_ok_bind {ε α β : Type} (a : α) (k : α → Except ε β) :
    (Except.ok (ε := ε) a).bind k = k a :=
  rfl

lemma apply_opt_stub {υ : Type} (doc : ConfigDoc) (agent_idx : Nat) (upd : Option υ)
    (f : ConfigDoc → Nat → υ → Except StatusCode ConfigDoc)
    (hf : ∀ d i u, f d i u = Except.ok d) :
    apply_opt doc agent_idx upd f = Except.ok doc := by
  cases upd with
  | none => rfl
  | some u => exact hf doc agent_idx u

/-- Every section-update function is a stub, so applying the whole chain
returns the document unchanged for any request. -/
lemma apply_section_updates_ok (doc : ConfigDoc) (agent_idx : Nat)
    (req : AgentConfigUpdateRequest) :
    apply_section_updates doc agent_idx req = Except.ok doc := by
  unfold apply_section_updates
  rw [apply_opt_stub _ _ _ update_routing_table (fun _ _ _ => rfl), except_ok_bind]
  rw [apply_opt_stub _ _ _ update_tuning_table (fun _ _ _ => rfl), except_ok_bind]
  rw [apply_opt_stub _ _ _ update_compaction_table (fun _ _ _ => rfl), except_ok_bind]
  rw [apply_opt_stub _ _ _ update_cortex_table (fun _ _ _ => rfl), except_ok_bind]
  rw [apply_opt_stub _ _ _ update_coalesce_table (fun _ _ _ => rfl), except_ok_bind]
  rw [apply_opt_stub _ _ _ update_memory_persistence_table (fun _ _ _ => rfl), except_ok_bind]
  exact apply_opt_stub _ _ _ update_browser_table (fun _ _ _ => rfl)

lemma find_agent_idx_of_any (agent_id : String) (tables : List AgentTable)
    (h : tables.any (fun t => decide (table_id t = some agent_id)) = true) :
    ∃ idx, find_agent_idx agent_id tables = some idx := by
  induction tables with
  | nil => simp at h
  | cons t rest ih =>
    by_cases ht : table_id t = some agent_id
    · exact ⟨0, by simp [find_agent_idx, ht]⟩
    · simp only [List.any_cons, Bool.or_eq_true, decide_eq_true_eq] at h
      rcases h with h | h
      · exact absurd h ht
      · obtain ⟨idx, hidx⟩ := ih (by simpa using h)
        exact ⟨idx + 1, by simp [find_agent_idx, ht, hidx]⟩

lemma find_agent_idx_eq_none (agent_id : String) (tables : List AgentTable)
    (h : tables.any (fun t => decide (table_id t = some agent_id)) = false) :
    find_agent_idx agent_id tables = none := by
  induction tables with
  | nil => rfl
  | cons t rest ih =>
    simp only [List.any_cons, Bool.or_eq_false_iff, decide_eq_false_iff_not] at h
    simp [find_agent_idx, h.1, ih (by simpa using h.2)]

/-- On a document that already contains the agent, `update_agent_config`
writes the document back unchanged and returns the `get_agent_config`
outcome. -/
lemma update_agent_config_existing (agent_configs : List AgentInfo) (doc : ConfigDoc)
    (req : AgentConfigUpdateRequest) (h : doc_has_agent doc req.agent_id = true) :
    update_agent_config agent_configs doc req =
      (some doc, get_agent_config agent_configs req.agent_id) := by
  rcases doc with ⟨ags, rest⟩
  cases ags with
  | none => simp [doc_has_agent] at h
  | some tables =>
    simp only [doc_has_agent] at h
    obtain ⟨idx, hidx⟩ := find_agent_idx_of_any req.agent_id tables h
    simp [update_agent_config, find_or_create_agent_table, hidx, apply_section_updates_ok]

/-- On a document whose `[[agents]]` array lacks the agent,
`update_agent_config` appends a table holding only the `id` entry, writes
the extended document back, and returns the `get_agent_config` outcome. -/
lemma update_agent_config_new (agent_configs : List AgentInfo) (doc : ConfigDoc)
    (tables : List AgentTable) (req : AgentConfigUpdateRequest)
    (hA : doc.agents = some tables) (h : doc_has_agent doc req.agent_id = false) :
    update_agent_config agent_configs doc req =
      (some ⟨some (tables ++ [[("id", TomlVal.str req.agent_id)]]), doc.rest⟩,
       get_agent_config agent_configs req.agent_id) := by
  rcases doc with ⟨ags, rest⟩
  simp only at hA
  subst hA
  simp only [doc_has_agent] at h
  simp [update_agent_config, find_or_create_agent_table,
    find_agent_idx_eq_none req.agent_id tables h, apply_section_updates_ok]

/-! ## Claims -/

/-- C1 (counterexample): the claim that a lagging subscriber is always
notified with a lag marker fails for the forwarding task installed by
`register_agent_events`: a forwarder that observes `Lagged(7)` (7 events
skipped) sends nothing into the aggregated stream, so the loss reaches
every external consumer without any marker, while the SSE loop in the same
situation does emit a single marker frame. -/
theorem C1_counterexample :
    register_agent_events_loop "agent" [RecvResult.lagged 7] = [] ∧
    events_sse [RecvResult.lagged 7] = [SseItem.lagged_marker (lag_marker_data 7)] :=
  ⟨rfl, rfl⟩

/-- C1 (amended): an SSE subscription that falls behind receives exactly one
lag-marker frame carrying the skipped count and then continues with the
remaining stream; the per-agent forwarding task, by contrast, handles a lag
notification by logging it at debug level and forwarding no marker event,
so the events it skipped are lost to every external consumer without
notice. -/
theorem C1_lag_observability :
    (∀ (count : Nat) (rest : List (RecvResult ApiEvent)),
        events_sse (RecvResult.lagged count :: rest) =
          SseItem.lagged_marker (lag_marker_data count) :: events_sse rest) ∧
    (∀ (agent_id : String) (count : Nat) (rest : List (RecvResult ProcessEvent)),
        register_agent_events_loop agent_id (RecvResult.lagged count :: rest) =
          register_agent_events_loop agent_id rest) :=
  ⟨fun _ _ => rfl, fun _ _ _ => rfl⟩

/-- C4: when the publishing side is torn down, a subscriber drains its
pending outcomes and then observes `Closed` and stops: everything after the
first `Closed` outcome contributes nothing, both for the SSE stream of
`events_sse` and for the forwarding loop of `register_agent_events`. -/
theorem C4_closed_terminates :
    (∀ (pre post : List (RecvResult ApiEvent)), RecvResult.closed ∉ pre →
        events_sse (pre ++ RecvResult.closed :: post) = events_sse pre) ∧
    (∀ (agent_id : String) (pre post : List (RecvResult ProcessEvent)),
        RecvResult.closed ∉ pre →
        register_agent_events_loop agent_id (pre ++ RecvResult.closed :: post) =
          register_agent_events_loop agent_id pre) := by
  constructor
  · intro pre post h
    induction pre with
    | nil => rfl
    | cons x rest ih =>
      have hx : x ≠ RecvResult.closed := fun hc => h (hc ▸ List.mem_cons_self x rest)
      have hrest : RecvResult.closed ∉ rest := fun hm => h (List.mem_cons_of_mem x hm)
      cases x with
      | ok e => simp [events_sse, ih hrest]
      | lagged count => simp [events_sse, ih hrest]
      | closed => exact absurd rfl hx
  · intro agent_id pre post h
    induction pre with
    | nil => rfl
    | cons x rest ih =>
      have hx : x ≠ RecvResult.closed := fun hc => h (hc ▸ List.mem_cons_self x rest)
      have hrest : RecvResult.closed ∉ rest := fun hm => h (List.mem_cons_of_mem x hm)
      cases x with
      | ok e =>
        simp only [List.cons_append, register_agent_events_loop]
        cases translate_event agent_id e with
        | some a => simp [ih hrest]
        | none => simp [ih hrest]
      | lagged count => simp [register_agent_events_loop, ih hrest]
      | closed => exact absurd rfl hx

/-- C4 (witness): concrete instantiation with one pending event before the
closed signal and trailing outcomes after it. -/
theorem C4_closed_terminates_witness :
    events_sse ([RecvResult.ok (ApiEvent.typingState "a" "c" true)] ++
        RecvResult.closed :: [RecvResult.lagged 3]) =
      events_sse [RecvResult.ok (ApiEvent.typingState "a" "c" true)] ∧
    register_agent_events_loop "a" ([RecvResult.ok ProcessEvent.other] ++
        RecvResult.closed :: [RecvResult.ok ProcessEvent.other]) =
      register_agent_events_loop "a" [RecvResult.ok ProcessEvent.other] :=
  ⟨C4_closed_terminates.1 [RecvResult.ok (ApiEvent.typingState "a" "c" true)]
      [RecvResult.lagged 3] (by decide),
   C4_closed_terminates.2 "a" [RecvResult.ok ProcessEvent.other]
      [RecvResult.ok ProcessEvent.other] (by decide)⟩

/-- C5: `process_id_info` decomposes every `ProcessId` into the
externally-stable pair, `Channel(id)` to ("channel", id), `Branch(id)` to
("branch", id), `Worker(id)` to ("worker", id); and every
`ToolStarted`/`ToolCompleted` event forwarded by the `register_agent_events`
loop carries exactly this decomposition of the source event's `ProcessId`
together with the registering agent id. -/
theorem C5_process_id_decomposition :
    (∀ id, process_id_info (ProcessId.channel id) = ("channel", id)) ∧
    (∀ id, process_id_info (ProcessId.branch id) = ("branch", id)) ∧
    (∀ id, process_id_info (ProcessId.worker id) = ("worker", id)) ∧
    (∀ (agent_id : String) (pid : ProcessId) (channel_id : Option String)
        (tool_name : String) (rest : List (RecvResult ProcessEvent)),
        register_agent_events_loop agent_id
            (RecvResult.ok (ProcessEvent.toolStarted pid channel_id tool_name) :: rest) =
          ApiEvent.toolStarted agent_id channel_id (process_id_info pid).1
              (process_id_info pid).2 tool_name ::
            register_agent_events_loop agent_id rest) ∧
    (∀ (agent_id : String) (pid : ProcessId) (channel_id : Option String)
        (tool_name : String) (rest : List (RecvResult ProcessEvent)),
        register_agent_events_loop agent_id
            (RecvResult.ok (ProcessEvent.toolCompleted pid channel_id tool_name) :: rest) =
          ApiEvent.toolCompleted agent_id channel_id (process_id_info pid).1
              (process_id_info pid).2 tool_name ::
            register_agent_events_loop agent_id rest) :=
  ⟨fun _ => rfl, fun _ => rfl, fun _ => rfl,
   fun _ _ _ _ _ => rfl, fun _ _ _ _ _ => rfl⟩

/-- C6: external-store errors degrade per endpoint: `list_memories` surfaces
a store error as a generic internal-error status; `list_channels` skips an
agent whose store errors and still returns the channels of every succeeding
agent in a success response; `channel_messages` skips a pool whose timeline
load errors (or is empty) and keeps searching, returning the first
non-empty timeline. -/
theorem C6_store_error_degradation :
    (∀ (searches : List String) (agent_id : String) (limit : Int) (offset : Nat),
        searches.any (fun s => decide (s = agent_id)) = true →
        list_memories searches agent_id (Except.error "store error") limit offset =
          Except.error StatusCode.internalServerError) ∧
    (∀ (agent_id : String) (e : String)
        (rest : List (String × Except String (List Channel))),
        list_channels ((agent_id, Except.error e) :: rest) = list_channels rest) ∧
    (∀ (agent_id : String) (channels : List Channel)
        (rest : List (String × Except String (List Channel))),
        list_channels ((agent_id, Except.ok channels) :: rest) =
          channels.map (channel_response agent_id) ++ list_channels rest) ∧
    (∀ (e : String) (rest : List (Except String (List TimelineItem))),
        channel_messages (Except.error e :: rest) = channel_messages rest) ∧
    (∀ (items : List TimelineItem) (rest : List (Except String (List TimelineItem))),
        items.isEmpty = false →
        channel_messages (Except.ok items :: rest) = items) ∧
    (∀ rest : List (Except String (List TimelineItem)),
        channel_messages (Except.ok [] :: rest) = channel_messages rest) := by
  refine ⟨fun searches agent_id limit offset h => ?_, fun _ _ _ => rfl, fun _ _ _ => rfl,
    fun _ _ => rfl, fun items rest h => ?_, fun _ => rfl⟩
  · simp [list_memories, h]
  · simp [channel_messages, h]

/-- C6 (witness): a failing memory store yields an internal error for a
registered agent; a failing first pool is skipped and the second pool's
non-empty timeline is returned. -/
theorem C6_store_error_degradation_witness :
    list_memories ["a"] "a" (Except.error "store error") 50 0 =
      Except.error StatusCode.internalServerError ∧
    channel_messages [Except.error "boom", Except.ok ["t1"]] = ["t1"] := by
  refine ⟨C6_store_error_degradation.1 ["a"] "a" 50 0 (by decide), ?_⟩
  rw [C6_store_error_degradation.2.2.2.1 "boom" [Except.ok ["t1"]]]
  exact C6_store_error_degradation.2.2.2.2.1 ["t1"] [] (by decide)

/-- C7 (counterexample): the subscription buffer capacity of the aggregated
event stream is not configurable: the code's only construction path,
`ApiState::new`, takes no capacity input and always creates the broadcast
channel with the literal capacity 512. -/
theorem C7_counterexample : ¬ subscription_capacity_configurable := by
  rintro ⟨s, hs, hc⟩
  exact hc (by rw [hs]; rfl)

/-- C7 (amended): each subscription to the aggregated event stream is backed
by a bounded broadcast channel of capacity exactly 512; the capacity is a
hardcoded literal in `ApiState::new`, and every state built by that
constructor carries it, so it is not configurable. -/
theorem C7_capacity_512 :
    ApiState.new.event_tx_capacity = 512 ∧
    ∀ s : ApiState, s = ApiState.new → s.event_tx_capacity = 512 :=
  ⟨rfl, fun _ h => by rw [h]; rfl⟩

/-- C7 (witness): the constructed state concretely has capacity 512. -/
theorem C7_capacity_512_witness : ApiState.new.event_tx_capacity = 512 :=
  C7_capacity_512.2 ApiState.new rfl

/-- C8: after `register_channel_status(c, b)` the registry maps `c` to `b`
(so a `channel_status` read includes the snapshot of `c`), after a
subsequent `unregister_channel_status(c)` it no longer contains `c`, and
blocks registered under any other channel id are unaffected by both
operations. -/
theorem C8_status_registry :
    ∀ (m : String → Option StatusBlock) (c : String) (b : StatusBlock),
      channel_status (register_channel_status m c b) c = some b ∧
      channel_status (unregister_channel_status (register_channel_status m c b) c) c = none ∧
      ∀ c2, c2 ≠ c →
        register_channel_status m c b c2 = m c2 ∧
        unregister_channel_status m c c2 = m c2 := by
  intro m c b
  refine ⟨?_, ?_, fun c2 h => ⟨?_, ?_⟩⟩
  · simp [channel_status, register_channel_status]
  · simp [channel_status, unregister_channel_status]
  · simp [register_channel_status, h]
  · simp [unregister_channel_status, h]

/-- C8 (witness): concrete registration of channel "a", read, removal, and
frame preservation on the unrelated channel "b". -/
theorem C8_status_registry_witness :
    channel_status (register_channel_status (fun _ => none) "a" ⟨[], [], []⟩) "a" =
      some ⟨[], [], []⟩ ∧
    channel_status
        (unregister_channel_status
          (register_channel_status (fun _ => none) "a" ⟨[], [], []⟩) "a") "a" = none ∧
    register_channel_status (fun _ => none) "a" ⟨[], [], []⟩ "b" = none ∧
    unregister_channel_status (fun _ => none) "a" "b" = none := by
  have h := C8_status_registry (fun _ => none) "a" ⟨[], [], []⟩
  have hb := h.2.2 "b" (by decide)
  exact ⟨h.1, h.2.1, hb.1, hb.2⟩

/-- C9: for a registered agent and a succeeding store, the `total` field of
`list_memories` is the length of the list fetched under the fetch limit
min(limit, 200) + offset — so it never exceeds that bound no matter how
many memories the store holds — and the returned memories are the fetched
list with its first `offset` items dropped; `total` is not the store-wide
count. -/
theorem C9_total_is_fetched_length :
    ∀ (searches : List String) (agent_id : String) (store_contents : List Memory)
      (limit : Int) (offset : Nat),
      searches.any (fun s => decide (s = agent_id)) = true → 0 ≤ limit →
      list_memories searches agent_id (Except.ok store_contents) limit offset =
        Except.ok ⟨(get_sorted store_contents (min limit 200 + offset)).drop offset,
          (get_sorted store_contents (min limit 200 + offset)).length⟩ ∧
      ((get_sorted store_contents (min limit 200 + offset)).length : Int) ≤
        min limit 200 + (offset : Int) := by
  intro searches agent_id store_contents limit offset h hlim
  constructor
  · simp [list_memories, h]
  · have hnn : 0 ≤ min limit 200 + (offset : Int) := by positivity
    have htake : (store_contents.take (min limit 200 + (offset : Int)).toNat).length ≤
        (min limit 200 + (offset : Int)).toNat := by
      simp [List.length_take_le]
    calc ((get_sorted store_contents (min limit 200 + offset)).length : Int)
        ≤ ((min limit 200 + (offset : Int)).toNat : Int) := by
          exact_mod_cast htake
      _ = min limit 200 + (offset : Int) := Int.toNat_of_nonneg hnn

/-- C9 (witness): a store of four memories with limit 2 and offset 1
fetches three items, reports total 3 (not the store-wide 4), and returns
the fetched list minus the first item. -/
theorem C9_total_is_fetched_length_witness :
    list_memories ["a"] "a" (Except.ok ["m1", "m2", "m3", "m4"]) 2 1 =
      Except.ok ⟨(get_sorted ["m1", "m2", "m3", "m4"] (min 2 200 + (1 : Nat))).drop 1,
        (get_sorted ["m1", "m2", "m3", "m4"] (min 2 200 + (1 : Nat))).length⟩ ∧
    ((get_sorted ["m1", "m2", "m3", "m4"] (min 2 200 + (1 : Nat))).length : Int) ≤
      min 2 200 + ((1 : Nat) : Int) :=
  C9_total_is_fetched_length ["a"] "a" ["m1", "m2", "m3", "m4"] 2 1 (by decide) (by decide)

/-- Concrete document for C2: one agent table with id "alpha". -/
def c2_doc : ConfigDoc := ⟨some [[("id", TomlVal.str "alpha")]], []⟩

/-- Concrete in-memory agent summaries for C2. -/
def c2_configs : List AgentInfo := [⟨"alpha", "agents/alpha", 128000, 5, 5⟩]

/-- Concrete compaction update for C2 violating the strict ordering:
0.9 / 0.5 / 0.3 is neither background < aggressive nor aggressive <
emergency. -/
def c2_compaction : CompactionUpdate :=
  ⟨some ((9 : Rat) / 10), some ((1 : Rat) / 2), some ((3 : Rat) / 10)⟩

/-- Concrete update request for C2. -/
def c2_request : AgentConfigUpdateRequest :=
  ⟨"alpha", none, none, some c2_compaction, none, none, none, none⟩

/-- C2 (counterexample): an `update_agent_config` request whose compaction
section violates the strict threshold ordering is not rejected: the handler
accepts it and returns the success response (the stubbed
`update_compaction_table` performs no validation), writing the document
back. -/
theorem C2_counterexample :
    compaction_violates_ordering c2_compaction ∧
    c2_request.compaction = some c2_compaction ∧
    update_agent_config c2_configs c2_doc c2_request =
      (some c2_doc, Except.ok default_agent_config_response) := by
  refine ⟨⟨(9 : Rat) / 10, (1 : Rat) / 2, (3 : Rat) / 10, rfl, rfl, rfl, by norm_num⟩, rfl, ?_⟩
  rw [update_agent_config_existing c2_configs c2_doc c2_request (by decide)]
  rfl

/-- C2 (amended): an `update_agent_config` request whose compaction section
violates the strict ordering is accepted, not rejected: for an agent id
already present in the document the handler writes the configuration file
back with exactly the content it read (the compaction stub performs no
mutation, so the persisted thresholds stay as they were) and returns the
`get_agent_config` outcome. -/
theorem C2_violating_compaction_accepted :
    ∀ (agent_configs : List AgentInfo) (doc : ConfigDoc) (req : AgentConfigUpdateRequest),
      (∃ cmp, req.compaction = some cmp ∧ compaction_violates_ordering cmp) →
      doc_has_agent doc req.agent_id = true →
      update_agent_config agent_configs doc req =
        (some doc, get_agent_config agent_configs req.agent_id) :=
  fun agent_configs doc req _ h => update_agent_config_existing agent_configs doc req h

/-- C2 (witness): the concrete violating request is accepted and the
document written back is the one read. -/
theorem C2_violating_compaction_accepted_witness :
    update_agent_config c2_configs c2_doc c2_request =
      (some c2_doc, get_agent_config c2_configs c2_request.agent_id) :=
  C2_violating_compaction_accepted c2_configs c2_doc c2_request
    ⟨c2_compaction, rfl,
      ⟨(9 : Rat) / 10, (1 : Rat) / 2, (3 : Rat) / 10, rfl, rfl, rfl, by norm_num⟩⟩
    (by decide)

/-- Concrete document for C3: one agent table with id "alpha" carrying an
extra key, plus unrelated top-level content. -/
def c3_doc : ConfigDoc :=
  ⟨some [[("id", TomlVal.str "alpha"), ("workspace", TomlVal.str "agents/alpha")]],
   [("log_level", TomlVal.str "info")]⟩

/-- Concrete in-memory agent summaries for C3. -/
def c3_configs : List AgentInfo := [⟨"alpha", "agents/alpha", 128000, 5, 5⟩]

/-- Concrete update request for C3 with every section populated. -/
def c3_request : AgentConfigUpdateRequest :=
  ⟨"alpha",
   some ⟨some "model-a", some "model-b", none, none, some "model-c", some 60⟩,
   some ⟨some 5, some 5, some 50, some 128000, some 50⟩,
   some ⟨some ((8 : Rat) / 10), some ((85 : Rat) / 100), some ((95 : Rat) / 100)⟩,
   some ⟨some 30, some 300, some 60, some 3, some 3600, some 1500, some 15⟩,
   some ⟨some true, some 1500, some 5000, some 2, some true⟩,
   some ⟨some true, some 50⟩,
   some ⟨some true, some true, some false⟩⟩

/-- C3: for every `update_agent_config` request whose agent id already
occurs in the document, the document written back is exactly the one read —
no agent-table key/value entry changes for any combination of routing,
tuning, compaction, cortex, coalesce, memory-persistence and browser
updates (every section updater is a stub) — and the handler's response is
the trailing `get_agent_config` outcome, not a mutation of the file. -/
theorem C3_existing_agent_no_mutation :
    ∀ (agent_configs : List AgentInfo) (doc : ConfigDoc) (req : AgentConfigUpdateRequest),
      doc_has_agent doc req.agent_id = true →
      (update_agent_config agent_configs doc req).1 = some doc ∧
      (update_agent_config agent_configs doc req).2 =
        get_agent_config agent_configs req.agent_id := by
  intro agent_configs doc req h
  rw [update_agent_config_existing agent_configs doc req h]
  exact ⟨rfl, rfl⟩

/-- C3 (witness): a request populating all seven sections against a document
that already contains the agent leaves the document unchanged. -/
theorem C3_existing_agent_no_mutation_witness :
    (update_agent_config c3_configs c3_doc c3_request).1 = some c3_doc ∧
    (update_agent_config c3_configs c3_doc c3_request).2 =
      get_agent_config c3_configs c3_request.agent_id :=
  C3_existing_agent_no_mutation c3_configs c3_doc c3_request (by decide)

/-- Concrete document for C10: its only agent table has id "alpha". -/
def c10_doc : ConfigDoc := ⟨some [[("id", TomlVal.str "alpha")]], []⟩

/-- Concrete update request for C10 targeting the unknown agent "beta". -/
def c10_request : AgentConfigUpdateRequest :=
  ⟨"beta", none, none, none, none, none, none, none⟩

/-- Concrete in-memory agent summaries for C10 that do contain "beta". -/
def c10_configs : List AgentInfo := [⟨"beta", "agents/beta", 128000, 5, 5⟩]

/-- C10 (counterexample): with an empty in-memory `agent_configs` list, an
`update_agent_config` request for an agent id absent from the (parseable,
`[[agents]]`-bearing) document does append the new agent table with only the
id field and writes the document back, but the handler then reports
not-found rather than success, because its response is the trailing
`get_agent_config` lookup against `agent_configs`. -/
theorem C10_counterexample :
    doc_has_agent c10_doc "beta" = false ∧
    update_agent_config [] c10_doc c10_request =
      (some ⟨some [[("id", TomlVal.str "alpha")], [("id", TomlVal.str "beta")]], []⟩,
       Except.error StatusCode.notFound) := by
  refine ⟨by decide, ?_⟩
  rw [update_agent_config_new [] c10_doc [[("id", TomlVal.str "alpha")]] c10_request rfl
    (by decide)]
  rfl

/-- C10 (amended): for a request whose agent id does not occur in the
document (which parses and has an `[[agents]]` array), the handler appends
a new agent table containing only the id field and writes the document
back; its response is then the `get_agent_config` outcome, which is the
success body exactly when the agent id occurs in the in-memory
`agent_configs` list, and not-found otherwise. -/
theorem C10_missing_agent_appended :
    ∀ (agent_configs : List AgentInfo) (doc : ConfigDoc) (tables : List AgentTable)
      (req : AgentConfigUpdateRequest),
      doc.agents = some tables →
      doc_has_agent doc req.agent_id = false →
      update_agent_config agent_configs doc req =
        (some ⟨some (tables ++ [[("id", TomlVal.str req.agent_id)]]), doc.rest⟩,
         get_agent_config agent_configs req.agent_id) ∧
      (get_agent_config agent_configs req.agent_id =
          Except.ok default_agent_config_response ↔
        agent_configs.any (fun c => decide (c.id = req.agent_id)) = true) := by
  intro agent_configs doc tables req hA h
  refine ⟨update_agent_config_new agent_configs doc tables req hA h, ?_⟩
  by_cases hc : agent_configs.any (fun c => decide (c.id = req.agent_id)) = true
  · simp [get_agent_config, hc]
  · simp [get_agent_config, hc]

/-- C10 (witness): concrete instantiation in which the unknown agent "beta"
is appended to the document and the response is the `get_agent_config`
outcome for "beta". -/
theorem C10_missing_agent_appended_witness :
    update_agent_config c10_configs c10_doc c10_request =
      (some ⟨some ([[("id", TomlVal.str "alpha")]] ++ [[("id", TomlVal.str "beta")]]),
         c10_doc.rest⟩,
       get_agent_config c10_configs c10_request.agent_id) ∧
    (get_agent_config c10_configs c10_request.agent_id =
        Except.ok default_agent_config_response ↔
      c10_configs.any (fun c => decide (c.id = c10_request.agent_id)) = true) :=
  C10_missing_agent_appended c10_configs c10_doc [[("id", TomlVal.str "alpha")]] c10_request
    rfl (by decide)

end Spacebot
